import Mathlib

/-!
Verification development for the Replicator proxy core.

The JavaScript sources are embedded shallowly: each JS function that a
property depends on is translated into an executable Lean definition over
`String` / `List Char`, with `Date.now()` passed explicitly as a `Nat`
timestamp and the outbound HTTP client modelled as an explicit oracle
function.  Machine a priori semantics used throughout:
`String.prototype.replace` with a string pattern or a non-global regex
replaces only the first occurrence; JS objects iterated with
`Object.entries` have unique keys, so header maps are association lists.
-/

namespace Replicator

/-- JS `String.startsWith` / regex `^pat` on character lists:
`leadsWith pat l` is true when `pat` is an initial segment of `l`. -/
def leadsWith : List Char → List Char → Bool
  | [], _ => true
  | _ :: _, [] => false
  | p :: ps, c :: cs => p == c && leadsWith ps cs

/-- JS `s.startsWith pat`. -/
def startsWithS (s pat : String) : Bool := leadsWith pat.data s.data

/-- JS `s.endsWith pat`. -/
def endsWithS (s pat : String) : Bool := leadsWith pat.data.reverse s.data.reverse

/-- Helper for `containsS`: does `pat` occur in the list? -/
def containsFrom (pat : List Char) : List Char → Bool
  | [] => leadsWith pat []
  | c :: cs => leadsWith pat (c :: cs) || containsFrom pat cs

/-- JS `s.includes pat`. -/
def containsS (s pat : String) : Bool := containsFrom pat.data s.data

/-- JS `s.replace(pat, repl)` with a plain-string (or non-global literal regex)
pattern: only the first occurrence is replaced.  `pat` is non-empty at every
use site. -/
def replFirst (pat repl : List Char) : List Char → List Char
  | [] => []
  | c :: cs =>
    if leadsWith pat (c :: cs) then repl ++ cs.drop (pat.length - 1)
    else c :: replFirst pat repl cs

/-- String wrapper for `replFirst`. -/
def replaceFirstS (s pat repl : String) : String := ⟨replFirst pat.data repl.data s.data⟩

/-- Number of positions at which `pat` occurs in the list; used to state
duplication results about the widget-injection rewrite (the script tag cannot
overlap itself, so this is its plain occurrence count). -/
def countFrom (pat : List Char) : List Char → Nat
  | [] => 0
  | c :: cs => (if leadsWith pat (c :: cs) then 1 else 0) + countFrom pat cs

/-- String wrapper for `countFrom`. -/
def countS (s pat : String) : Nat := countFrom pat.data s.data

/-- JS `s.split(sep)` for a one-character separator, on character lists. -/
def splitCh (sep : Char) : List Char → List (List Char)
  | [] => [[]]
  | c :: cs =>
    if c == sep then [] :: splitCh sep cs
    else match splitCh sep cs with
      | [] => [[c]]
      | h :: t => (c :: h) :: t

/-- JS `parts.join(sep)` on character lists. -/
def joinSep (sep : List Char) : List (List Char) → List Char
  | [] => []
  | [s] => s
  | s :: rest => s ++ sep ++ joinSep sep rest

/-- JS `s.toLowerCase()` (ASCII). -/
def lowerS (s : String) : String := ⟨s.data.map Char.toLower⟩

/-- Scanner for the regex capture `([^"]*)"`: the run of non-quote characters
up to the next `"`; `none` when no closing quote exists (the regex then has no
match at this position). -/
def takeNoQuote : List Char → Option (List Char × List Char)
  | [] => none
  | c :: cs =>
    if c == '"' then some ([], cs)
    else match takeNoQuote cs with
      | some (cap, rest) => some (c :: cap, rest)
      | none => none

/-- `pages/api/proxy.js` lines 107-108: the non-global regex replacement
`html.replace(/attr="\/([^"]*)"/, attr="${baseUrl}/$1")`.  The scan finds the
leftmost position where the literal `attr="/` is followed by a quote-free
capture and a closing quote, and rewrites only that occurrence. -/
def attrRelFix (attr base : List Char) : List Char → List Char
  | [] => []
  | c :: cs =>
    if leadsWith (attr ++ ['=', '"', '/']) (c :: cs) then
      match takeNoQuote (cs.drop (attr.length + 2)) with
      | some (cap, rest) =>
        attr ++ ['=', '"'] ++ base ++ ['/'] ++ cap ++ ['"'] ++ rest
      | none => c :: attrRelFix attr base cs
    else c :: attrRelFix attr base cs

/-- String wrapper for `attrRelFix`. -/
def fixRelAttrS (s attr base : String) : String := ⟨attrRelFix attr.data base.data s.data⟩

/-- Characters kept up to and including the last `/` (JS
`p.substring(0, p.lastIndexOf('/') + 1)`; empty when there is no slash). -/
def takeUptoLastSlash (p : String) : String :=
  ⟨(p.data.reverse.dropWhile (fun c => !(c == '/'))).reverse⟩

/-! ## WHATWG `new URL` model

A structural model of Node's `new URL`, covering the URL shapes this
repository feeds it: `scheme:opaque` and `scheme://host[:port]/path` forms
without userinfo, IPv6 brackets, query or fragment components relevant to the
parsed fields.  Scheme and host are lowercased, default ports are elided, and
http/https URLs with an empty host are rejected, as in the WHATWG parser. -/

/-- Parsed-URL record mirroring the `URL` properties the sources read:
`protocol` keeps the trailing `:` as in JS. -/
structure ParsedUrl where
  protocol : String
  hostname : String
  port : String
  pathname : String
deriving DecidableEq, Repr

/-- JS `url.origin` for http/https URLs: scheme, host and any explicit port. -/
def ParsedUrl.origin (u : ParsedUrl) : String :=
  u.protocol ++ "//" ++ u.hostname ++ (if u.port = "" then "" else ":" ++ u.port)

/-- Scan the tail of a URL scheme: alphanumeric / `+` / `-` / `.` characters
terminated by `:`; returns the scheme characters and the remainder. -/
def schemeTail (acc : List Char) : List Char → Option (List Char × List Char)
  | [] => none
  | c :: cs =>
    if c == ':' then some (acc.reverse, cs)
    else if c.isAlpha || c.isDigit || c == '+' || c == '-' || c == '.' then
      schemeTail (c :: acc) cs
    else none

/-- A URL scheme: a letter followed by `schemeTail`. -/
def takeScheme : List Char → Option (List Char × List Char)
  | [] => none
  | c :: cs => if c.isAlpha then schemeTail [c] cs else none

/-- Digits-to-`Nat` fold for port strings. -/
def digitsToNat (l : List Char) : Nat :=
  l.foldl (fun n c => n * 10 + (c.toNat - 48)) 0

/-- Model of `new URL(u)`: `none` when the JS constructor throws. -/
def parseUrl (u : String) : Option ParsedUrl :=
  match takeScheme u.data with
  | none => none
  | some (sch, rest) =>
    let scheme := lowerS ⟨sch⟩
    if leadsWith ['/', '/'] rest then
      let after := rest.drop 2
      let auth := after.takeWhile (fun c => !(c == '/' || c == '?' || c == '#'))
      let tail := after.drop auth.length
      let host := auth.takeWhile (fun c => !(c == ':'))
      let portCs := auth.drop (host.length + 1)
      if host.isEmpty && (scheme = "http" || scheme = "https") then none
      else if !(portCs.all Char.isDigit) then none
      else if portCs.length > 0 && digitsToNat portCs > 65535 then none
      else
        let port : String :=
          if (scheme = "http" && (⟨portCs⟩ : String) = "80")
              || (scheme = "https" && (⟨portCs⟩ : String) = "443") then ""
          else ⟨portCs⟩
        let path := tail.takeWhile (fun c => !(c == '?' || c == '#'))
        let pathname : String :=
          if path.isEmpty && (scheme = "http" || scheme = "https") then "/" else ⟨path⟩
        some ⟨scheme ++ ":", lowerS ⟨host⟩, port, pathname⟩
    else
      let path := rest.takeWhile (fun c => !(c == '?' || c == '#'))
      some ⟨scheme ++ ":", "", "", ⟨path⟩⟩

/-- Does the string begin with a URL scheme (an absolute reference)? -/
def hasScheme (s : String) : Bool := (takeScheme s.data).isSome

/-- Dot-segment removal on the segments of an absolute path
(`remDotsSegs processed remaining`); a trailing `.` or `..` keeps the
trailing slash, and `..` above the root is ignored, as in WHATWG paths. -/
def remDotsSegs (acc : List (List Char)) : List (List Char) → List (List Char)
  | [] => acc.reverse
  | s :: rest =>
    if s = ['.'] then
      if rest.isEmpty then ([] :: acc).reverse else remDotsSegs acc rest
    else if s = ['.', '.'] then
      if rest.isEmpty then ([] :: acc.drop 1).reverse
      else remDotsSegs (acc.drop 1) rest
    else remDotsSegs (s :: acc) rest

/-- Normalize an absolute path (starting with `/`) by removing dot segments. -/
def remDots (p : String) : String :=
  ⟨'/' :: joinSep ['/'] (remDotsSegs [] ((splitCh '/' p.data).drop 1))⟩

/-! ## HtmlModifier (`src/unnamed/part_003`, class `HtmlModifier`) -/

namespace HtmlModifier

/-- `isAbsoluteUrl`: `/^https?:\/\//.test(url) || /^\/\//.test(url)`. -/
def isAbsoluteUrl (url : String) : Bool :=
  startsWithS url "http://" || startsWithS url "https://" || startsWithS url "//"

/-- `isDataUri`: `/^data:/.test(url)`. -/
def isDataUri (url : String) : Bool := startsWithS url "data:"

/-- Model of `new URL(rel, baseUrl ++ currentPath).href` as invoked from
`resolveUrl`: `baseUrl` is `protocol//host` and `currentPath` begins and ends
with `/`.  Covers scheme-ful, protocol-relative, root-relative and plain
relative references without query or fragment parts. -/
def hrefResolve (rel baseUrl currentPath protocol : String) : String :=
  if hasScheme rel then rel
  else if startsWithS rel "//" then protocol ++ rel
  else if startsWithS rel "/" then baseUrl ++ remDots rel
  else if rel = "" then baseUrl ++ currentPath
  else baseUrl ++ remDots (currentPath ++ rel)

/-- `resolveUrl(relativeUrl, baseUrl, parsedUrl)`: protocol-relative URLs get
the target's scheme, absolute paths are anchored at `baseUrl`, and other
references are resolved against the directory of `parsedUrl.pathname`.  The
JS `try`/`catch` returns `relativeUrl` when `new URL` throws; the model's
resolver is total on the inputs it receives, so no catch arm is needed. -/
def resolveUrl (relativeUrl baseUrl : String) (parsedUrl : ParsedUrl) : String :=
  if startsWithS relativeUrl "//" then parsedUrl.protocol ++ relativeUrl
  else if startsWithS relativeUrl "/" then baseUrl ++ relativeUrl
  else
    let currentPath :=
      if endsWithS parsedUrl.pathname "/" then parsedUrl.pathname
      else takeUptoLastSlash parsedUrl.pathname
    hrefResolve relativeUrl baseUrl currentPath parsedUrl.protocol

/-- JS `s.trim()` on character lists. -/
def trimCh (l : List Char) : List Char :=
  ((l.dropWhile Char.isWhitespace).reverse.dropWhile Char.isWhitespace).reverse

/-- JS `s.split(/\s+/)` on a trimmed string: split on whitespace runs. -/
def splitWsAux (acc : List Char) : List Char → List (List Char)
  | [] => [acc.reverse]
  | c :: cs =>
    if c.isWhitespace then
      if acc.isEmpty then splitWsAux [] cs else acc.reverse :: splitWsAux [] cs
    else splitWsAux (c :: acc) cs

/-- `fixSrcset(srcset, baseUrl, parsedUrl)`: each comma-separated candidate is
trimmed, split on whitespace, and its first part resolved unless absolute or a
data URI; candidates are re-joined with `", "` and parts with `" "`. -/
def fixSrcset (srcset baseUrl : String) (parsedUrl : ParsedUrl) : String :=
  ⟨joinSep [',', ' '] <| (splitCh ',' srcset.data).map fun src =>
    match (splitWsAux [] (trimCh src)).map (fun l => (⟨l⟩ : String)) with
    | [] => []
    | p0 :: rest =>
      let p0 :=
        if !(isAbsoluteUrl p0) && !(isDataUri p0) then resolveUrl p0 baseUrl parsedUrl
        else p0
      joinSep [' '] ((p0 :: rest).map String.data)⟩

/-- The per-attribute body of `fixUrls` (lines 108-121 of the class): a URL
attribute value is rewritten only when it is non-empty, not a data URI and not
absolute; `srcset` goes through `fixSrcset`, everything else through
`resolveUrl`. -/
def fixAttrValue (attr value baseUrl : String) (parsedUrl : ParsedUrl) : String :=
  if value ≠ "" && !(isDataUri value) && !(isAbsoluteUrl value) then
    if attr = "srcset" then fixSrcset value baseUrl parsedUrl
    else resolveUrl value baseUrl parsedUrl
  else value

/-- `modifyHtml` without its `catch`: `new URL(targetUrl)` throwing is an
error, and the cheerio traversal (widget injection, URL fixing, base tag,
form marking) is abstracted as a `steps` transform that may itself fail. -/
def modifyHtmlE (steps : String → ParsedUrl → Except String String)
    (html targetUrl : String) : Except String String :=
  match parseUrl targetUrl with
  | none => .error "Invalid URL"
  | some parsedUrl => steps html parsedUrl

/-- `modifyHtml(html, targetUrl)`: the whole transform runs inside
`try { ... } catch (error) { return html }`, so any failure yields the
original document unchanged. -/
def modifyHtml (steps : String → ParsedUrl → Except String String)
    (html targetUrl : String) : String :=
  match modifyHtmlE steps html targetUrl with
  | .ok out => out
  | .error _ => html

end HtmlModifier

/-! ## HeaderProcessor (`src/unnamed/part_003`, class `HeaderProcessor`)

Upstream header maps come from `Object.entries`, so they are association
lists whose keys are pairwise distinct; successive `processedHeaders[key] =
value` assignments on the fresh output object therefore append in iteration
order, and the five fixed headers are appended last (their keys are dropped
from the upstream portion, so they never collide). -/

namespace HeaderProcessor

/-- `this.headersToRemove`. -/
def headersToRemove : List String :=
  ["x-frame-options", "content-security-policy",
   "content-security-policy-report-only", "x-content-security-policy",
   "x-webkit-csp", "strict-transport-security", "public-key-pins",
   "public-key-pins-report-only", "x-xss-protection",
   "x-content-type-options", "referrer-policy", "feature-policy",
   "permissions-policy", "cross-origin-embedder-policy",
   "cross-origin-opener-policy", "cross-origin-resource-policy",
   "x-permitted-cross-domain-policies"]

/-- `this.headersToPreserve`. -/
def headersToPreserve : List String :=
  ["content-type", "content-length", "content-encoding", "cache-control",
   "expires", "last-modified", "etag", "content-language",
   "content-disposition"]

/-- `encodeURIComponent` over ASCII text: everything except the unreserved
characters is percent-encoded with uppercase hex digits. -/
def encodeURIComponent (s : String) : String :=
  ⟨s.data.flatMap fun c =>
    if c.isAlpha || c.isDigit ||
        c ∈ ['-', '_', '.', '!', '~', '*', '\'', '(', ')'] then [c]
    else
      let n := c.toNat
      let hex := fun d => if d < 10 then Char.ofNat (48 + d) else Char.ofNat (55 + (d - 10))
      ['%', hex (n / 16), hex (n % 16)]⟩

/-- `processLocation(location)`: absolute redirect targets are routed back
through the proxy, relative ones are left for the browser. -/
def processLocation (location : String) : String :=
  if startsWithS location "http://" || startsWithS location "https://" then
    "/api/proxy?url=" ++ encodeURIComponent location
  else location

/-- One iteration of the `Object.entries(headers).forEach` body: `none` means
the header is not added to the output (`headersToRemove` hit, or a transform
returning `null`, or the fail-closed default). -/
def processHeaderEntry (k v : String) : Option (String × String) :=
  let lowerKey := lowerS k
  if headersToRemove.contains lowerKey then none
  else if lowerKey = "set-cookie" then none
  else if lowerKey = "location" then some (k, processLocation v)
  else if headersToPreserve.contains lowerKey then some (k, v)
  else none

/-- The headers assigned after the loop: marker, robots exclusion, CORS. -/
def addedHeaders : List (String × String) :=
  [("X-Proxied", "true"), ("X-Robots-Tag", "noindex, nofollow"),
   ("Access-Control-Allow-Origin", "*"),
   ("Access-Control-Allow-Methods", "GET, POST, OPTIONS"),
   ("Access-Control-Allow-Headers", "Content-Type")]

/-- `processResponseHeaders(headers)`. -/
def processResponseHeaders (headers : List (String × String)) : List (String × String) :=
  (headers.filterMap fun kv => processHeaderEntry kv.1 kv.2) ++ addedHeaders

end HeaderProcessor

/-! ## RateLimiter (`src/pages/api/utils/rateLimiter.js`)

The limiter's `this.requests` map is modelled as a function from keys to
optional entries; `Date.now()` is the explicit `now` argument (the two calls
inside one `check` are modelled as the same instant).  `options.skip`
defaults to constantly false and `keyGenerator` is applied by the caller, so
`check` takes the client key directly. -/

namespace RateLimiter

/-- A value of the `requests` map: `{ count, resetTime }`. -/
structure RateEntry where
  count : Nat
  resetTime : Nat
deriving DecidableEq, Repr

/-- The limiter's key-to-entry mapping. -/
def RateMap : Type := String → Option RateEntry

/-- The per-instance options used by `getClient`/`check`. -/
structure RLOptions where
  windowMs : Nat
  max : Nat
deriving DecidableEq, Repr

/-- `getClient(key)`: a missing entry starts at `{count: 0, resetTime: now +
windowMs}`, and an entry whose window has passed (`now > resetTime`) is reset
the same way. -/
def getClient (opts : RLOptions) (requests : RateMap) (key : String) (now : Nat) :
    RateEntry :=
  let client := (requests key).getD ⟨0, now + opts.windowMs⟩
  if now > client.resetTime then ⟨0, now + opts.windowMs⟩ else client

/-- The result record of `check`. -/
structure CheckResult where
  limited : Bool
  remaining : Nat
  total : Nat
  retryAfter : Nat
  resetTime : Nat
deriving DecidableEq, Repr

/-- `check(req)`: fetch-or-create the client entry, increment its counter,
and report `limited` iff the incremented count exceeds `options.max`.
`remaining` is `Math.max(0, max - count)` and `retryAfter` is
`Math.ceil((resetTime - now) / 1000)` (non-negative because `getClient`
guarantees `now ≤ resetTime`).  Returns the result together with the updated
`requests` map. -/
def check (opts : RLOptions) (requests : RateMap) (key : String) (now : Nat) :
    CheckResult × RateMap :=
  let c0 := getClient opts requests key now
  let client : RateEntry := ⟨c0.count + 1, c0.resetTime⟩
  ({ limited := client.count > opts.max
     remaining := opts.max - client.count
     total := opts.max
     retryAfter := (client.resetTime - now + 999) / 1000
     resetTime := client.resetTime },
   fun k => if k = key then some client else requests k)

end RateLimiter

/-! ## The `/api/proxy` route (`src/pages/api/proxy.js`)

The Next.js handler is embedded as a function of the request data, the
module-level `requestCounts` map, the current time, and an oracle standing
for axios.  Axios with `validateStatus: status => status < 500` resolves for
any received response with status `< 500` and rejects with
`error.response.status = status` otherwise; network-level failures are the
other oracle constructors.  The result records the response status and body
together with every outbound call made and the updated rate map. -/

namespace ProxyRoute

open RateLimiter

/-- `RATE_LIMIT = parseInt(process.env.RATE_LIMIT_REQUESTS || '100')` at the
documented default configuration. -/
def RATE_LIMIT : Nat := 100

/-- `RATE_WINDOW = 60 * 1000`. -/
def RATE_WINDOW : Nat := 60000

/-- `blockedHosts` (line 34). -/
def blockedHosts : List String := ["localhost", "127.0.0.1", "0.0.0.0", "::1"]

/-- The second-octet test of `/^(10\.|172\.(1[6-9]|2[0-9]|3[0-1])\.|192\.168\.)/`
for the `172.` alternative. -/
def is172Private : List Char → Bool
  | '1' :: '7' :: '2' :: '.' :: d1 :: d2 :: '.' :: _ =>
    (d1 == '1' && 54 ≤ d2.toNat && d2.toNat ≤ 57) ||
    (d1 == '2' && d2.isDigit) ||
    (d1 == '3' && (d2 == '0' || d2 == '1'))
  | _ => false

/-- `privateIPRegex.test(parsedUrl.hostname)` (line 40). -/
def privateIPRegexTest (hostname : String) : Bool :=
  startsWithS hostname "10." || is172Private hostname.data ||
    startsWithS hostname "192.168."

/-- The rate-limiting block (lines 46-56): read-or-default, reset when the
window passed, increment, store.  Returns the incremented entry and the
updated map. -/
def rateStep (requestCounts : RateMap) (clientIP : String) (now : Nat) :
    RateEntry × RateMap :=
  let prev := (requestCounts clientIP).getD ⟨0, now + RATE_WINDOW⟩
  let cur := if now > prev.resetTime then (⟨0, now + RATE_WINDOW⟩ : RateEntry) else prev
  let cur : RateEntry := ⟨cur.count + 1, cur.resetTime⟩
  (cur, fun k => if k = clientIP then some cur else requestCounts k)

/-- The widget tag built at lines 116-118:
`<script src="${protocol}://${host}/widget.js"></script>`. -/
def widgetScript (protocol host : String) : String :=
  "<script src=\"" ++ protocol ++ "://" ++ host ++ "/widget.js\"></script>"

/-- Lines 107-108: the two non-global regex replacements that absolutize the
first `href="/..."` and the first `src="/..."` occurrence. -/
def fixRelativeLinks (html baseUrl : String) : String :=
  fixRelAttrS (fixRelAttrS html "href" baseUrl) "src" baseUrl

/-- The HTML branch of the handler (lines 100-129): link fixing, base-tag
insertion after the first `<head>`, then widget injection before the first
`</head>`, else before the first `</body>`, else appended. -/
def rewriteHtml (body targetUrl baseUrl protocol host : String) : String :=
  let h := fixRelativeLinks body baseUrl
  let h :=
    if containsS h "<head>" then
      replaceFirstS h "<head>" ("<head><base href=\"" ++ targetUrl ++ "\">")
    else h
  let ws := widgetScript protocol host
  if containsS h "</head>" then replaceFirstS h "</head>" (ws ++ "</head>")
  else if containsS h "</body>" then replaceFirstS h "</body>" (ws ++ "</body>")
  else h ++ ws

/-- An outbound probe (`axios.head`, `test=true`) or full fetch (`axios.get`). -/
inductive FetchMode where
  | probe
  | full
deriving DecidableEq, Repr

/-- What the upstream interaction produces: a received HTTP response
(any status — axios itself rejects when `validateStatus` fails, which the
handler model checks via the status), a timeout (`ECONNABORTED`/`ETIMEDOUT`),
a request that got no response (`error.request`), or an error with neither
response nor request attached. -/
inductive FetchOutcome where
  | ok (status : Nat) (contentType : String) (body : String)
  | timeoutErr
  | noResponseErr
  | otherErr
deriving DecidableEq, Repr

/-- The request data the handler reads: method, `query.url`, `query.test`,
the rate-limit client key (`x-forwarded-for` etc.), `Date.now()`, and the
proxy's own protocol/host used to build the widget URL. -/
structure HandlerInput where
  method : String
  url : Option String
  isTest : Bool
  clientIP : String
  now : Nat
  proxyProtocol : String
  proxyHost : String

/-- The externally visible outcome: HTTP status, body (error bodies are
abbreviated to their `error` message), the outbound calls made, and the
`requestCounts` map afterwards. -/
structure HandlerResult where
  status : Nat
  body : String
  fetchCalls : List (FetchMode × String)
  requestCounts : RateMap

/-- The `catch` arm for an axios error that carries `error.response`
(lines 158-168, falling through to the `error.request` arm when no inner
branch matches). -/
def catchWithResponse (status : Nat) : Nat × String :=
  if status = 404 then (404, "Website not found")
  else if status = 403 then (403, "Access forbidden by the target website")
  else if 500 ≤ status then (502, "Target website server error")
  else (502, "Unable to reach the website. Please check the URL.")

/-- The route handler, line by line: method gate, missing-`url` gate,
`new URL` parse, local-address and private-IP checks, rate limiting, then
either the HEAD probe (`test=true`) or the full fetch with HTML rewriting.
There is no scheme check anywhere on this path. -/
def handler (inp : HandlerInput)
    (doFetch : FetchMode → String → FetchOutcome)
    (requestCounts : RateMap) : HandlerResult :=
  if inp.method ≠ "GET" then
    ⟨405, "Method not allowed", [], requestCounts⟩
  else
    match inp.url with
    | none => ⟨400, "URL parameter is required", [], requestCounts⟩
    | some targetUrl =>
      match parseUrl targetUrl with
      | none => ⟨400, "Invalid URL format", [], requestCounts⟩
      | some parsedUrl =>
        if blockedHosts.contains parsedUrl.hostname then
          ⟨403, "Access to local addresses is not allowed", [], requestCounts⟩
        else if privateIPRegexTest parsedUrl.hostname then
          ⟨403, "Access to private IP addresses is not allowed", [], requestCounts⟩
        else
          let rs := rateStep requestCounts inp.clientIP inp.now
          if rs.1.count > RATE_LIMIT then
            ⟨429, "Too many requests. Please try again later.", [], rs.2⟩
          else if inp.isTest then
            match doFetch .probe targetUrl with
            | .ok status _ _ =>
              if status < 500 then ⟨200, "success", [(.probe, targetUrl)], rs.2⟩
              else ⟨400, "Unable to reach the specified website", [(.probe, targetUrl)], rs.2⟩
            | _ => ⟨400, "Unable to reach the specified website", [(.probe, targetUrl)], rs.2⟩
          else
            match doFetch .full targetUrl with
            | .ok status ct body =>
              if status < 500 then
                let contentType := if ct = "" then "text/html" else ct
                let outBody :=
                  if containsS contentType "text/html" then
                    rewriteHtml body targetUrl parsedUrl.origin
                      inp.proxyProtocol inp.proxyHost
                  else body
                ⟨200, outBody, [(.full, targetUrl)], rs.2⟩
              else
                let e := catchWithResponse status
                ⟨e.1, e.2, [(.full, targetUrl)], rs.2⟩
            | .timeoutErr =>
              ⟨408, "Request timed out. The website may be slow or unavailable.",
                [(.full, targetUrl)], rs.2⟩
            | .noResponseErr =>
              ⟨502, "Unable to reach the website. Please check the URL.",
                [(.full, targetUrl)], rs.2⟩
            | .otherErr =>
              ⟨500, "An unexpected error occurred while processing your request",
                [(.full, targetUrl)], rs.2⟩

end ProxyRoute

end Replicator

open Replicator

/-! ## Claim theorems -/

/-- C8: `resolveUrl` maps the absolute-path reference `/a/b` against origin
`https://example.com` (base path `/x/`) to `https://example.com/a/b`,
ignoring the current path, and maps the relative reference `c.css` against
document URL `https://example.com/x/y` to `https://example.com/x/c.css`,
anchored at the document's directory. -/
theorem c8_resolveUrl_roundtrip :
    HtmlModifier.resolveUrl "/a/b" "https://example.com"
        ⟨"https:", "example.com", "", "/x/"⟩ = "https://example.com/a/b" ∧
    HtmlModifier.resolveUrl "c.css" "https://example.com"
        ⟨"https:", "example.com", "", "/x/y"⟩ = "https://example.com/x/c.css" := by
  decide

/-- C9: whenever the HTML transform fails (the `try` body of `modifyHtml`
does not produce a result), `modifyHtml` returns the original body unchanged —
never a partial rewrite and never a failure of the whole response. -/
theorem c9_rewrite_failure_returns_original
    (steps : String → ParsedUrl → Except String String) (html targetUrl : String)
    (h : (HtmlModifier.modifyHtmlE steps html targetUrl).isOk = false) :
    HtmlModifier.modifyHtml steps html targetUrl = html := by
  unfold HtmlModifier.modifyHtml
  cases he : HtmlModifier.modifyHtmlE steps html targetUrl with
  | ok v => rw [he] at h; simp [Except.isOk, Except.toBool] at h
  | error e => rfl

/-- C9 witness: a target URL on which `new URL` throws makes the whole
rewrite return the input body. -/
theorem c9_witness :
    HtmlModifier.modifyHtml (fun h _ => .ok (h ++ "!")) "<p>x</p>" ":::bad" = "<p>x</p>" :=
  c9_rewrite_failure_returns_original _ _ _ (by decide)

/-- C10: a protocol-relative URL attribute value (beginning with `//`) is
classified as absolute by `isAbsoluteUrl` and left completely unchanged by
the attribute rewrite — neither resolved, given a scheme, nor proxied. -/
theorem c10_protocol_relative_left_unchanged
    (attr value baseUrl : String) (pu : ParsedUrl)
    (h : startsWithS value "//" = true) :
    HtmlModifier.isAbsoluteUrl value = true ∧
    HtmlModifier.fixAttrValue attr value baseUrl pu = value := by
  have habs : HtmlModifier.isAbsoluteUrl value = true := by
    simp [HtmlModifier.isAbsoluteUrl, h]
  refine ⟨habs, ?_⟩
  simp [HtmlModifier.fixAttrValue, habs]

/-- C10 witness at a concrete CDN-style value. -/
theorem c10_witness :
    HtmlModifier.isAbsoluteUrl "//cdn.example.com/lib.js" = true ∧
    HtmlModifier.fixAttrValue "src" "//cdn.example.com/lib.js" "https://example.com"
      ⟨"https:", "example.com", "", "/"⟩ = "//cdn.example.com/lib.js" :=
  c10_protocol_relative_left_unchanged "src" "//cdn.example.com/lib.js"
    "https://example.com" ⟨"https:", "example.com", "", "/"⟩ (by decide)

/-- C1 (code bug): a `javascript:` URL is not rejected by the route — it
parses, passes the host checks, consumes a rate-limit slot, and the outbound
fetcher is invoked (one FULL call); the response is the generic 500, not a
400 scheme rejection. -/
theorem c1_javascript_url_reaches_fetcher :
    (ProxyRoute.handler
        ⟨"GET", some "javascript:alert(1)", false, "1.2.3.4", 0, "http", "proxy.example"⟩
        (fun _ _ => .otherErr) (fun _ => none)).fetchCalls
      = [(.full, "javascript:alert(1)")] ∧
    (ProxyRoute.handler
        ⟨"GET", some "javascript:alert(1)", false, "1.2.3.4", 0, "http", "proxy.example"⟩
        (fun _ _ => .otherErr) (fun _ => none)).status = 500 := by
  decide

set_option maxRecDepth 100000 in
/-- C4 (code bug): the route's HTML rewrite injects the widget script
unconditionally, so rewriting an already-rewritten document adds a second
copy of the injected script tag. -/
theorem c4_second_rewrite_duplicates_widget :
    countS (ProxyRoute.rewriteHtml "<head></head><body>Hi</body>"
        "http://a.b/" "http://a.b" "http" "h")
      (ProxyRoute.widgetScript "http" "h") = 1 ∧
    countS (ProxyRoute.rewriteHtml
        (ProxyRoute.rewriteHtml "<head></head><body>Hi</body>"
          "http://a.b/" "http://a.b" "http" "h")
        "http://a.b/" "http://a.b" "http" "h")
      (ProxyRoute.widgetScript "http" "h") = 2 := by
  decide

/-- C5 (code bug): an upstream 404 response satisfies `validateStatus`
(`status < 500`), so the handler proxies it with status 200; an upstream 5xx
is mapped to 502 as claimed. -/
theorem c5_upstream_404_gets_200_and_5xx_gets_502 :
    (ProxyRoute.handler ⟨"GET", some "http://a.b/", false, "ip", 0, "http", "h"⟩
        (fun _ _ => .ok 404 "text/html" "<body>missing</body>") (fun _ => none)).status
      = 200 ∧
    (ProxyRoute.handler ⟨"GET", some "http://a.b/", false, "ip", 0, "http", "h"⟩
        (fun _ _ => .ok 503 "text/html" "oops") (fun _ => none)).status = 502 := by
  decide

/-- C6 (code bug): the route's non-global regex replacement rewrites only the
first `href="/..."` occurrence; the second stays relative. -/
theorem c6_route_rewrites_only_first_occurrence :
    ProxyRoute.fixRelativeLinks "<a href=\"/a\"></a><a href=\"/b\"></a>" "http://a.b"
      = "<a href=\"http://a.b/a\"></a><a href=\"/b\"></a>" := by
  decide

/-- Every preserve-listed header name is outside the deny-list and is neither
`set-cookie` nor `location`. -/
lemma preserve_policy : ∀ s ∈ HeaderProcessor.headersToPreserve,
    HeaderProcessor.headersToRemove.contains s = false ∧
    s ≠ "set-cookie" ∧ s ≠ "location" := by decide

/-- The five always-added headers are outside the deny-list and are not
`set-cookie`. -/
lemma added_policy : ∀ kv ∈ HeaderProcessor.addedHeaders,
    HeaderProcessor.headersToRemove.contains (lowerS kv.1) = false ∧
    lowerS kv.1 ≠ "set-cookie" := by decide

/-- Characterization of the loop body: a produced entry keeps the original
key, is outside the deny-list and not `set-cookie`, and is either a
transformed `location` or an unchanged preserve-listed header. -/
lemma processHeaderEntry_some {k₀ v₀ k v : String}
    (h : HeaderProcessor.processHeaderEntry k₀ v₀ = some (k, v)) :
    k = k₀ ∧ HeaderProcessor.headersToRemove.contains (lowerS k₀) = false ∧
    lowerS k₀ ≠ "set-cookie" ∧
    ((lowerS k₀ = "location" ∧ v = HeaderProcessor.processLocation v₀) ∨
      (HeaderProcessor.headersToPreserve.contains (lowerS k₀) = true ∧ v = v₀)) := by
  unfold HeaderProcessor.processHeaderEntry at h
  dsimp only at h
  split_ifs at h with h1 h2 h3 h4 <;> simp_all

/-- C3: the header sanitizer (i) never emits a deny-listed name or
`set-cookie`, (ii) forwards every preserve-listed upstream header with its
value unchanged, (iii) emits nothing except added headers, preserved
headers, and the transformed `location`, dropping everything else, and
(iv) always adds the proxied marker, robots exclusion, and CORS headers. -/
theorem c3_header_sanitizer_policy (headers : List (String × String)) :
    (∀ k v, (k, v) ∈ HeaderProcessor.processResponseHeaders headers →
        HeaderProcessor.headersToRemove.contains (lowerS k) = false ∧
        lowerS k ≠ "set-cookie") ∧
    (∀ k v, (k, v) ∈ headers →
        HeaderProcessor.headersToPreserve.contains (lowerS k) = true →
        (k, v) ∈ HeaderProcessor.processResponseHeaders headers) ∧
    (∀ k v, (k, v) ∈ HeaderProcessor.processResponseHeaders headers →
        (k, v) ∈ HeaderProcessor.addedHeaders ∨
        (HeaderProcessor.headersToPreserve.contains (lowerS k) = true ∧
          (k, v) ∈ headers) ∨
        (lowerS k = "location" ∧ ∃ v₀, (k, v₀) ∈ headers ∧
          v = HeaderProcessor.processLocation v₀)) ∧
    (∀ kv ∈ HeaderProcessor.addedHeaders,
        kv ∈ HeaderProcessor.processResponseHeaders headers) := by
  refine ⟨?_, ?_, ?_, ?_⟩
  · intro k v hm
    rcases List.mem_append.mp hm with hf | ha
    · rcases List.mem_filterMap.mp hf with ⟨⟨k₀, v₀⟩, _, heq⟩
      obtain ⟨hk, hrem, hsc, _⟩ := processHeaderEntry_some heq
      exact hk ▸ ⟨hrem, hsc⟩
    · exact added_policy (k, v) ha
  · intro k v hm hp
    have hmem : lowerS k ∈ HeaderProcessor.headersToPreserve := by simpa using hp
    obtain ⟨hrem, hsc, hloc⟩ := preserve_policy _ hmem
    have hrem' : lowerS k ∉ HeaderProcessor.headersToRemove := by simpa using hrem
    refine List.mem_append.mpr (Or.inl (List.mem_filterMap.mpr ⟨(k, v), hm, ?_⟩))
    simp [HeaderProcessor.processHeaderEntry, hsc, hloc, hrem', hmem]
  · intro k v hm
    rcases List.mem_append.mp hm with hf | ha
    · rcases List.mem_filterMap.mp hf with ⟨⟨k₀, v₀⟩, hmem, heq⟩
      obtain ⟨hk, _, _, hcase⟩ := processHeaderEntry_some heq
      subst hk
      rcases hcase with ⟨hloc, hv⟩ | ⟨hp, hv⟩
      · exact Or.inr (Or.inr ⟨hloc, v₀, hmem, hv⟩)
      · exact Or.inr (Or.inl ⟨hp, hv ▸ hmem⟩)
    · exact Or.inl ha
  · intro kv hkv
    exact List.mem_append.mpr (Or.inr hkv)

/-- C3 witness at a concrete upstream header map. -/
theorem c3_witness :
    ("Content-Type", "text/css") ∈ HeaderProcessor.processResponseHeaders
      [("X-Frame-Options", "DENY"), ("Set-Cookie", "a=b"),
       ("Content-Type", "text/css"), ("ETag", "\"v1\"")] :=
  (c3_header_sanitizer_policy _).2.1 "Content-Type" "text/css"
    (by decide) (by decide)

/-- A `check` on a key whose window is still open increments the stored
counter and flags `limited` exactly when the new count exceeds `max`. -/
lemma check_state (opts : RateLimiter.RLOptions) (m : RateLimiter.RateMap)
    (key : String) (now n R : Nat) (hm : m key = some ⟨n, R⟩) (hnow : now ≤ R) :
    (RateLimiter.check opts m key now).1.limited = decide (n + 1 > opts.max) ∧
    (RateLimiter.check opts m key now).1.retryAfter = (R - now + 999) / 1000 ∧
    (RateLimiter.check opts m key now).2 key = some ⟨n + 1, R⟩ := by
  unfold RateLimiter.check RateLimiter.getClient
  rw [hm]
  simp [Nat.not_lt.mpr hnow, Option.getD]

/-- A `check` on an unseen key creates the entry at count 1 with the window
ending `windowMs` later. -/
lemma check_fresh (opts : RateLimiter.RLOptions) (m : RateLimiter.RateMap)
    (key : String) (now : Nat) (hm : m key = none) :
    (RateLimiter.check opts m key now).1.limited = decide (1 > opts.max) ∧
    (RateLimiter.check opts m key now).2 key = some ⟨1, now + opts.windowMs⟩ := by
  unfold RateLimiter.check RateLimiter.getClient
  rw [hm]
  simp [Option.getD, Nat.not_lt.mpr (Nat.le_add_left now opts.windowMs)]

/-- A `check` after the stored window has elapsed resets the counter to 0
before incrementing, giving count 1 in a fresh window. -/
lemma check_reset (opts : RateLimiter.RLOptions) (m : RateLimiter.RateMap)
    (key : String) (now n R : Nat) (hm : m key = some ⟨n, R⟩) (hR : R < now) :
    (RateLimiter.check opts m key now).1.limited = decide (1 > opts.max) ∧
    (RateLimiter.check opts m key now).2 key = some ⟨1, now + opts.windowMs⟩ := by
  unfold RateLimiter.check RateLimiter.getClient
  rw [hm]
  simp [hR, Option.getD]

set_option linter.unusedVariables false in
/-- C7: with max 3 and a 60s window, three same-key checks within the window
are admitted, the fourth is rejected with a positive retryAfter, and the
first check after the window elapses is admitted with the counter reset
to 1. -/
theorem c7_fixed_window_scenario (t1 t2 t3 t4 t5 : Nat) (key : String)
    (h12 : t1 ≤ t2) (h23 : t2 ≤ t3) (h34 : t3 ≤ t4)
    (h4 : t4 < t1 + 60000) (h5 : t1 + 60000 < t5) :
    let opts : RateLimiter.RLOptions := ⟨60000, 3⟩
    let s1 := RateLimiter.check opts (fun _ => none) key t1
    let s2 := RateLimiter.check opts s1.2 key t2
    let s3 := RateLimiter.check opts s2.2 key t3
    let s4 := RateLimiter.check opts s3.2 key t4
    let s5 := RateLimiter.check opts s4.2 key t5
    s1.1.limited = false ∧ s2.1.limited = false ∧ s3.1.limited = false ∧
    s4.1.limited = true ∧ 1 ≤ s4.1.retryAfter ∧
    s5.1.limited = false ∧ s5.2 key = some ⟨1, t5 + 60000⟩ := by
  intro opts s1 s2 s3 s4 s5
  obtain ⟨l1, m1⟩ := check_fresh opts (fun _ => none) key t1 rfl
  obtain ⟨l2, _, m2⟩ := check_state opts s1.2 key t2 1 (t1 + 60000) m1 (by omega)
  obtain ⟨l3, _, m3⟩ := check_state opts s2.2 key t3 2 (t1 + 60000) m2 (by omega)
  obtain ⟨l4, r4, m4⟩ := check_state opts s3.2 key t4 3 (t1 + 60000) m3 (by omega)
  obtain ⟨l5, m5⟩ := check_reset opts s4.2 key t5 4 (t1 + 60000) m4 (by omega)
  refine ⟨by rw [l1]; rfl, by rw [l2]; rfl, by rw [l3]; rfl,
    by rw [l4]; rfl, ?_, by rw [l5]; rfl, m5⟩
  rw [r4]
  have : 1000 ≤ t1 + 60000 - t4 + 999 := by omega
  exact (Nat.le_div_iff_mul_le (by omega)).mpr (by omega)

/-- C2 counterexample: a request from a client that has already exhausted its
rate window (count 100 of 100, window open) but targets `http://localhost/`
is answered 403 by the Target Validator, not 429 — so the admission decision
is not made first, and such a request does reach the validator. -/
theorem c2_counterexample_overlimit_request_reaches_validator :
    (ProxyRoute.handler ⟨"GET", some "http://localhost/", false, "ip", 5, "http", "h"⟩
        (fun _ _ => .otherErr) (fun _ => some ⟨100, 1000000⟩)).status = 403 ∧
    (ProxyRoute.handler ⟨"GET", some "http://localhost/", false, "ip", 5, "http", "h"⟩
        (fun _ _ => .otherErr) (fun _ => some ⟨100, 1000000⟩)).status ≠ 429 ∧
    (ProxyRoute.handler ⟨"GET", some "http://localhost/", false, "ip", 5, "http", "h"⟩
        (fun _ _ => .otherErr) (fun _ => some ⟨100, 1000000⟩)).body
      = "Access to local addresses is not allowed" ∧
    (ProxyRoute.handler ⟨"GET", some "http://localhost/", false, "ip", 5, "http", "h"⟩
        (fun _ _ => .otherErr) (fun _ => some ⟨100, 1000000⟩)).requestCounts "ip"
      = some ⟨100, 1000000⟩ := by
  decide

/-- C2 amended: target validation runs before the admission decision — a
request whose target fails to parse or hits the local/private host checks is
rejected with the rate state untouched and no fetch, and a request exceeding
its client's window is rejected with 429 (and no fetch) only after passing
validation. -/
theorem c2_amended_validation_precedes_admission :
    (∀ url q ip now pp ph fetch rc, parseUrl url = none →
        ProxyRoute.handler ⟨"GET", some url, q, ip, now, pp, ph⟩ fetch rc
          = ⟨400, "Invalid URL format", [], rc⟩) ∧
    (∀ url pu q ip now pp ph fetch rc, parseUrl url = some pu →
        ProxyRoute.blockedHosts.contains pu.hostname = true →
        ProxyRoute.handler ⟨"GET", some url, q, ip, now, pp, ph⟩ fetch rc
          = ⟨403, "Access to local addresses is not allowed", [], rc⟩) ∧
    (∀ url pu q ip now pp ph fetch rc, parseUrl url = some pu →
        ProxyRoute.blockedHosts.contains pu.hostname = false →
        ProxyRoute.privateIPRegexTest pu.hostname = true →
        ProxyRoute.handler ⟨"GET", some url, q, ip, now, pp, ph⟩ fetch rc
          = ⟨403, "Access to private IP addresses is not allowed", [], rc⟩) ∧
    (∀ url pu q ip now pp ph fetch rc, parseUrl url = some pu →
        ProxyRoute.blockedHosts.contains pu.hostname = false →
        ProxyRoute.privateIPRegexTest pu.hostname = false →
        (ProxyRoute.rateStep rc ip now).1.count > ProxyRoute.RATE_LIMIT →
        ProxyRoute.handler ⟨"GET", some url, q, ip, now, pp, ph⟩ fetch rc
          = ⟨429, "Too many requests. Please try again later.",
              [], (ProxyRoute.rateStep rc ip now).2⟩) := by
  refine ⟨?_, ?_, ?_, ?_⟩
  · intro url q ip now pp ph fetch rc hparse
    simp [ProxyRoute.handler, hparse]
  · intro url pu q ip now pp ph fetch rc hparse hblocked
    have hb : pu.hostname ∈ ProxyRoute.blockedHosts := by simpa using hblocked
    simp [ProxyRoute.handler, hparse, hb]
  · intro url pu q ip now pp ph fetch rc hparse hblocked hpriv
    have hb : pu.hostname ∉ ProxyRoute.blockedHosts := by simpa using hblocked
    simp [ProxyRoute.handler, hparse, hb, hpriv]
  · intro url pu q ip now pp ph fetch rc hparse hblocked hpriv hover
    have hb : pu.hostname ∉ ProxyRoute.blockedHosts := by simpa using hblocked
    simp [ProxyRoute.handler, hparse, hb, hpriv, hover]

/-- C2 amended witness: a valid public target from an exhausted client is
rejected 429 with no outbound call. -/
theorem c2_amended_witness :
    ProxyRoute.handler
        ⟨"GET", some "http://example.com/", false, "ip", 5, "http", "h"⟩
        (fun _ _ => .otherErr) (fun _ => some ⟨100, 1000000⟩)
      = ⟨429, "Too many requests. Please try again later.", [],
          (ProxyRoute.rateStep (fun _ => some ⟨100, 1000000⟩) "ip" 5).2⟩ :=
  c2_amended_validation_precedes_admission.2.2.2 "http://example.com/"
    ⟨"http:", "example.com", "", "/"⟩ false "ip" 5 "http" "h"
    (fun _ _ => .otherErr) (fun _ => some ⟨100, 1000000⟩)
    (by decide) (by decide) (by decide) (by decide)

/-- C7 witness at concrete timestamps 0,1,2,3 and 60001. -/
theorem c7_witness :
    let opts : RateLimiter.RLOptions := ⟨60000, 3⟩
    let s1 := RateLimiter.check opts (fun _ => none) "k" 0
    let s2 := RateLimiter.check opts s1.2 "k" 1
    let s3 := RateLimiter.check opts s2.2 "k" 2
    let s4 := RateLimiter.check opts s3.2 "k" 3
    let s5 := RateLimiter.check opts s4.2 "k" 60001
    s1.1.limited = false ∧ s2.1.limited = false ∧ s3.1.limited = false ∧
    s4.1.limited = true ∧ 1 ≤ s4.1.retryAfter ∧
    s5.1.limited = false ∧ s5.2 "k" = some ⟨1, 60001 + 60000⟩ :=
  c7_fixed_window_scenario 0 1 2 3 60001 "k" (by omega) (by omega) (by omega)
    (by omega) (by omega)

example :
    Replicator.parseUrl "javascript:alert(1)" =
      some ⟨"javascript:", "", "", "alert(1)"⟩ := by decide

example :
    Replicator.parseUrl "https://example.com/x/y" =
      some ⟨"https:", "example.com", "", "/x/y"⟩ := by decide

example : Replicator.parseUrl "http://" = none := by decide

example :
    Replicator.HtmlModifier.resolveUrl "c.css" "https://example.com"
      ⟨"https:", "example.com", "", "/x/y"⟩ = "https://example.com/x/c.css" := by decide
